import Mathlib

/-!
Verification of the "nearby stops with arrivals" pipeline of the DRTime
transit application (`src/drtime/src/app/api/stops/nearby/route.ts`).

The file shallowly embeds the data-processing core of the endpoint:

* GTFS scheduled-time parsing with midnight rollover (`parseGtfsTime`);
* the arrival resolver (`resolveRow`, `getUpcomingArrivals`): static
  stop-times joined with trips/routes, overlaid with live trip updates,
  filtered to a forward 2-hour window, sorted and truncated to 5;
* the live-feed fallback (`getRealtimeTripUpdates`): every failure mode
  degrades to the empty update list;
* the nearby-stops service (`findNearby`, `GET_v1`): per-stop distance,
  radius filter, ascending sort, cap at 60 results;
* the second, experimental revision of the endpoint kept in the same
  source file (`v2Arrivals`, `GET_v2`), which fabricates arrival times
  from a random number when no live update matches.

Modelling conventions:
* Timestamps are natural numbers counting seconds (JS `Date` values are
  millisecond-precision; every quantity the endpoint compares or rounds
  is derived from whole seconds, so seconds lose nothing).
* JS `Math.round((b - a) / 60000)` on whole-second differences is
  `jsRound60` below: `Math.round x = ⌊x + 1/2⌋`, also for negative `x`.
* JS floating-point `NaN` (from `parseFloat` of a non-numeric string) is
  modelled by `Option ℚ` with `none` for `NaN`: every ordered comparison
  against `none` is false, matching IEEE comparison with `NaN`.
* The Haversine `calculateDistance` is trigonometric; its numeric value
  is irrelevant to every claim, so the distance function is passed as a
  parameter (standing for `calculateDistance(lat, lon, stop…)`), with
  `none` standing for the `NaN` it returns on `NaN` input.
* `Array.prototype.sort` with comparator `(a, b) => key a - key b` is a
  stable sort by `key a ≤ key b`; every stable sort agrees with every
  other on such a comparator, so it is modelled by `List.insertionSort`
  (which Mathlib proves stable and sorted).
-/

/-- JS `Math.round(d / 60)` for a whole-second difference `d`:
round half toward positive infinity, i.e. `⌊(d + 30) / 60⌋`.
On `ℤ` the `/` below is floor division, matching `Math.floor`. -/
def jsRound60 (d : ℤ) : ℤ :=
  (d + 30) / 60

/-- A GTFS `HH:MM:SS` time string, split at the colons and converted by
`Number` — the three numeric components. The hour may exceed 24. -/
structure GtfsTime where
  h : ℕ
  m : ℕ
  s : ℕ
deriving DecidableEq

/-- One row of `routes.txt` as cached by the endpoint. -/
structure RouteRec where
  route_id : String
  route_short_name : String
  route_long_name : String
deriving DecidableEq

/-- One row of `trips.txt` as cached by the endpoint. -/
structure TripRec where
  trip_id : String
  route_id : String
  trip_headsign : String
deriving DecidableEq

/-- One row of `stop_times.txt` as cached by the endpoint, with the two
time strings already split into components. -/
structure StopTimeRec where
  trip_id : String
  stop_id : String
  arrival_time : GtfsTime
  departure_time : GtfsTime
  stop_sequence : ℕ
deriving DecidableEq

/-- One row of `stops.txt`; coordinates are the result of `parseFloat`
on the raw strings (`none` = `NaN`). -/
structure StopRec where
  stop_id : String
  stop_name : String
  stop_lat : Option ℚ
  stop_lon : Option ℚ
deriving DecidableEq

/-- The static feed snapshot (`GtfsCache` in the source). -/
structure GtfsCache where
  routes : List RouteRec
  trips : List TripRec
  stopTimes : List StopTimeRec
  stops : List StopRec
deriving DecidableEq

/-- Source `parseGtfsTime`: resolve a GTFS time against the reference
`now` (seconds since epoch). The result keeps `now`'s calendar day,
sets the clock to the given components with the hour reduced mod 24,
and adds `hours / 24` days (`dayOffset` in the source). -/
def parseGtfsTime (t : GtfsTime) (now : ℕ) : ℕ :=
  (now / 86400 + t.h / 24) * 86400 + (t.h % 24) * 3600 + t.m * 60 + t.s

/-- GTFS-realtime `TripDescriptor`: the trip a feed entity refers to. -/
structure TripDescriptor where
  tripId : String
deriving DecidableEq

/-- GTFS-realtime `StopTimeEvent`: a predicted time (epoch seconds) and
a predicted delay. Either may be absent. -/
structure StopTimeEvent where
  time : Option ℕ
  delay : Option ℤ
deriving DecidableEq

/-- GTFS-realtime `StopTimeUpdate`: per-stop predictions of one trip
update. -/
structure StopTimeUpdate where
  stopId : String
  arrival : Option StopTimeEvent
  departure : Option StopTimeEvent
deriving DecidableEq

/-- GTFS-realtime `TripUpdate` message carried by a feed entity. -/
structure TripUpdateMsg where
  trip : Option TripDescriptor
  stopTimeUpdate : Option (List StopTimeUpdate)
deriving DecidableEq

/-- One decoded entity of the realtime feed. -/
structure FeedEntity where
  tripUpdate : Option TripUpdateMsg
deriving DecidableEq

/-- The optional chain `entity.tripUpdate?.trip?.tripId` from the
source's entity-matching predicate. -/
def entityTripId (e : FeedEntity) : Option String :=
  (e.tripUpdate.bind (fun tu => tu.trip)).map (fun td => td.tripId)

/-- Source lines 185–197: find the first feed entity whose trip id
matches, then (when its `stopTimeUpdate` list is present) the first
per-stop update matching the queried stop. -/
def liveStopUpdate (updates : List FeedEntity) (tripId stopId : String) :
    Option StopTimeUpdate :=
  match updates.find? (fun e => entityTripId e == some tripId) with
  | none => none
  | some e =>
    match e.tripUpdate with
    | none => none
    | some tu =>
      match tu.stopTimeUpdate with
      | none => none
      | some us => us.find? (fun u => u.stopId == stopId)

/-- JS truthiness of an optional numeric timestamp: present and
nonzero (the source tests `stopUpdate.arrival?.time` directly, so a
zero timestamp counts as absent). -/
def truthyTime (o : Option ℕ) : Option ℕ :=
  match o with
  | some t => if t = 0 then none else some t
  | none => none

/-- The live arrival prediction the source applies for a trip/stop pair,
if any. -/
def liveArrivalTime (updates : List FeedEntity) (tripId stopId : String) :
    Option ℕ :=
  truthyTime
    ((liveStopUpdate updates tripId stopId).bind
      (fun u => u.arrival.bind (fun ev => ev.time)))

/-- The live departure prediction the source applies for a trip/stop
pair, if any (it only influences the realtime flag). -/
def liveDepartureTime (updates : List FeedEntity) (tripId stopId : String) :
    Option ℕ :=
  truthyTime
    ((liveStopUpdate updates tripId stopId).bind
      (fun u => u.departure.bind (fun ev => ev.time)))

/-- One entry pushed onto `upcoming` by `getUpcomingArrivals`.
`arrivalSec` is the loop's `arrivalTime` variable (the possibly
live-adjusted arrival instant); the displayed `scheduledArrival`
string of the source is its locale rendering and carries no further
information. -/
structure ResolvedArrival where
  routeId : String
  routeName : String
  headsign : String
  arrivalSec : ℕ
  minutesUntilArrival : ℤ
  isRealtime : Bool
  delayMinutes : ℤ
deriving DecidableEq

/-- The body of the `for (const st of stopTimes)` loop of
`getUpcomingArrivals`, up to the window test: resolve the trip (skip
row if absent), resolve the route (skip row if absent), parse the
scheduled arrival, overlay the live arrival/departure predictions. -/
def resolveRow (gtfs : GtfsCache) (updates : List FeedEntity)
    (stopId : String) (now : ℕ) (st : StopTimeRec) :
    Option ResolvedArrival :=
  match gtfs.trips.find? (fun t => t.trip_id == st.trip_id) with
  | none => none
  | some trip =>
    match gtfs.routes.find? (fun r => r.route_id == trip.route_id) with
    | none => none
    | some route =>
      let sched := parseGtfsTime st.arrival_time now
      let liveArr := liveArrivalTime updates st.trip_id stopId
      let liveDep := liveDepartureTime updates st.trip_id stopId
      let arrivalTime := liveArr.getD sched
      some
        { routeId := route.route_id
          routeName := route.route_short_name
          headsign := trip.trip_headsign
          arrivalSec := arrivalTime
          minutesUntilArrival := jsRound60 ((arrivalTime : ℤ) - (now : ℤ))
          isRealtime := liveArr.isSome || liveDep.isSome
          delayMinutes :=
            match liveArr with
            | some t => jsRound60 ((t : ℤ) - (sched : ℤ))
            | none => 0 }

/-- The source's window test: include only entries whose (possibly
live-adjusted) arrival is strictly after `now` and at most 2 hours
(7 200 000 ms) in the future. -/
def inWindow (now : ℕ) (e : ResolvedArrival) : Bool :=
  decide (now < e.arrivalSec) && decide (e.arrivalSec ≤ now + 7200)

/-- Comparator of the arrivals sort:
`(a, b) => a.minutesUntilArrival - b.minutesUntilArrival`. -/
def arrivalLe (a b : ResolvedArrival) : Prop :=
  a.minutesUntilArrival ≤ b.minutesUntilArrival

instance : DecidableRel arrivalLe :=
  fun a b => inferInstanceAs (Decidable (a.minutesUntilArrival ≤ b.minutesUntilArrival))

instance : IsTotal ResolvedArrival arrivalLe :=
  ⟨fun a b => le_total a.minutesUntilArrival b.minutesUntilArrival⟩

instance : IsTrans ResolvedArrival arrivalLe :=
  ⟨fun _ _ _ h1 h2 => le_trans h1 h2⟩

/-- Source `getUpcomingArrivals` (first revision): all stop-times of the
stop, resolved and overlaid row by row, window-filtered, sorted by
minutes-until-arrival, truncated to the first 5. A failed/timed-out
live fetch enters as `updates = []`. -/
def getUpcomingArrivals (stopId : String) (gtfs : GtfsCache)
    (updates : List FeedEntity) (now : ℕ) : List ResolvedArrival :=
  (List.insertionSort arrivalLe
      (((gtfs.stopTimes.filter (fun st => st.stop_id == stopId)).filterMap
          (resolveRow gtfs updates stopId now)).filter (inWindow now))).take 5

/-- One element of the response's `stops` array (first revision):
identifier, name, parsed coordinates, distance from the query point
(`none` = `NaN`), and the stop's resolved arrivals. -/
structure StopResult where
  id : String
  name : String
  latitude : Option ℚ
  longitude : Option ℚ
  distance : Option ℚ
  arrivals : List ResolvedArrival
deriving DecidableEq

/-- JS `x <= c` on a possibly-`NaN` number: false when `x` is `NaN`. -/
def jsLeNum (x : Option ℚ) (c : ℚ) : Bool :=
  match x with
  | some q => decide (q ≤ c)
  | none => false

/-- Comparator of the stops sort: `(a, b) => a.distance - b.distance`.
After the radius filter no `NaN` distance remains, so the `getD`
default is never consulted. -/
def stopDistLe (a b : StopResult) : Prop :=
  a.distance.getD 0 ≤ b.distance.getD 0

instance : DecidableRel stopDistLe :=
  fun a b => inferInstanceAs (Decidable (a.distance.getD 0 ≤ b.distance.getD 0))

instance : IsTotal StopResult stopDistLe :=
  ⟨fun a b => le_total (a.distance.getD 0) (b.distance.getD 0)⟩

instance : IsTrans StopResult stopDistLe :=
  ⟨fun _ _ _ h1 h2 => le_trans h1 h2⟩

/-- The per-stop mapping plus radius filter of the first revision's
`GET` (lines 357–383): build a `StopResult` for every stop of the
snapshot, then keep those within 10 km. `dist` stands for
`calculateDistance(lat, lon, stop.stop_lat, stop.stop_lon)`; the
Haversine internals are opaque to every claim, only `NaN`
propagation and the produced values matter. -/
def findNearbyFiltered (dist : StopRec → Option ℚ) (gtfs : GtfsCache)
    (updates : List FeedEntity) (now : ℕ) : List StopResult :=
  (gtfs.stops.map (fun stop =>
    { id := stop.stop_id
      name := stop.stop_name
      latitude := stop.stop_lat
      longitude := stop.stop_lon
      distance := dist stop
      arrivals := getUpcomingArrivals stop.stop_id gtfs updates now })).filter
    (fun s => jsLeNum s.distance 10)

/-- The nearby-stops result of the first revision's `GET`: radius
filter, ascending sort by distance, truncation to 60. -/
def findNearby (dist : StopRec → Option ℚ) (gtfs : GtfsCache)
    (updates : List FeedEntity) (now : ℕ) : List StopResult :=
  (List.insertionSort stopDistLe (findNearbyFiltered dist gtfs updates now)).take 60

/-- A raw query parameter as the handler observes it: whether the key
is present, whether its string value is non-empty (JS truthiness of a
string), and the value `parseFloat` produces for it (`none` = `NaN`). -/
structure QueryParam where
  present : Bool
  nonempty : Bool
  numVal : Option ℚ
deriving DecidableEq

/-- JS truthiness of `searchParams.get(k)`: a present, non-empty
string. -/
def paramTruthy (p : QueryParam) : Bool :=
  p.present && p.nonempty

/-- The two responses the handler can produce on the paths the claims
concern: HTTP 200 with a stops array, or HTTP 400. -/
inductive NearbyResponse where
  | ok (stops : List StopResult)
  | badRequest
deriving DecidableEq

/-- The first revision's `GET` (lines 339–395), restricted to its
decision logic: reject with 400 only when `!lat || !lon` on the raw
strings; otherwise run the pipeline with the `parseFloat`ed values —
a present non-numeric string such as `abc` passes the check and flows
on as `NaN`. `calcDist` stands for `calculateDistance` partially
applied to the two query floats. -/
def GET_v1 (lat lon : QueryParam)
    (calcDist : Option ℚ → Option ℚ → StopRec → Option ℚ)
    (gtfs : GtfsCache) (updates : List FeedEntity) (now : ℕ) :
    NearbyResponse :=
  if paramTruthy lat && paramTruthy lon then
    NearbyResponse.ok (findNearby (calcDist lat.numVal lon.numVal) gtfs updates now)
  else NearbyResponse.badRequest

/-- The ways the live-feed fetch of `getRealtimeTripUpdates` can end:
a decoded entity list, an HTTP/transport error, an empty payload, a
protobuf decode error, or the 5-second race timeout in
`getUpcomingArrivals`. -/
inductive LiveFetchOutcome where
  | ok (entities : List FeedEntity)
  | fetchError
  | emptyPayload
  | decodeError
  | timedOut
deriving DecidableEq

/-- Source `getRealtimeTripUpdates` (plus the caller's timeout race):
on success the decoded entities are returned; every failure mode is
caught, logged and mapped to the empty list — the caller never sees a
failure. -/
def getRealtimeTripUpdates : LiveFetchOutcome → List FeedEntity
  | LiveFetchOutcome.ok es => es
  | LiveFetchOutcome.fetchError => []
  | LiveFetchOutcome.emptyPayload => []
  | LiveFetchOutcome.decodeError => []
  | LiveFetchOutcome.timedOut => []

/-- Schedule-only row resolution: `resolveRow` as it behaves with no
live data — the arrival is the parsed schedule time, no realtime flag,
no delay. Stated separately so the live-absence claim can equate the
resolver against a pipeline that never consults a live feed. -/
def resolveScheduledRow (gtfs : GtfsCache) (now : ℕ) (st : StopTimeRec) :
    Option ResolvedArrival :=
  match gtfs.trips.find? (fun t => t.trip_id == st.trip_id) with
  | none => none
  | some trip =>
    match gtfs.routes.find? (fun r => r.route_id == trip.route_id) with
    | none => none
    | some route =>
      let sched := parseGtfsTime st.arrival_time now
      some
        { routeId := route.route_id
          routeName := route.route_short_name
          headsign := trip.trip_headsign
          arrivalSec := sched
          minutesUntilArrival := jsRound60 ((sched : ℤ) - (now : ℤ))
          isRealtime := false
          delayMinutes := 0 }

/-- The arrivals the static schedule alone yields for a stop: the
resolver pipeline with every row resolved by `resolveScheduledRow`. -/
def staticUpcomingArrivals (stopId : String) (gtfs : GtfsCache) (now : ℕ) :
    List ResolvedArrival :=
  (List.insertionSort arrivalLe
      (((gtfs.stopTimes.filter (fun st => st.stop_id == stopId)).filterMap
          (resolveScheduledRow gtfs now)).filter (inWindow now))).take 5

/-- One row of the second revision's `stopTimes` cache: that revision
declares (and looks up) a `route_id` directly on the stop-time row. -/
structure V2StopTime where
  trip_id : String
  stop_id : String
  route_id : String
deriving DecidableEq

/-- One element of the second revision's `arrivals` array. -/
structure V2Arrival where
  route_name : String
  arrival_time : ℕ
  is_realtime : Bool
  delay : ℤ
deriving DecidableEq

/-- JS `route.route_long_name || route.route_short_name`: the long
name unless it is the empty string. -/
def v2RouteName (r : RouteRec) : String :=
  if r.route_long_name = "" then r.route_short_name else r.route_long_name

/-- Comparator of the second revision's arrivals sort:
`(a, b) => a.arrival_time - b.arrival_time`. -/
def v2ArrivalLe (a b : V2Arrival) : Prop :=
  a.arrival_time ≤ b.arrival_time

instance : DecidableRel v2ArrivalLe :=
  fun a b => inferInstanceAs (Decidable (a.arrival_time ≤ b.arrival_time))

instance : IsTotal V2Arrival v2ArrivalLe :=
  ⟨fun a b => le_total a.arrival_time b.arrival_time⟩

instance : IsTrans V2Arrival v2ArrivalLe :=
  ⟨fun _ _ _ h1 h2 => le_trans h1 h2⟩

/-- The second revision's arrival computation (lines 628–663): for each
stop-time of the stop, look the route up by the row's `route_id`
(dropping the row when absent), look for a live per-stop update, and
set `arrival_time` to the live prediction when present — otherwise to
`Math.floor(Date.now() / 1000) + Math.floor(Math.random() * 3600)`, a
random instant within the next hour. The random draws are made
explicit as the stream `rand`, consumed per row index and reduced mod
3600 to reflect the range of `Math.floor(Math.random() * 3600)`;
finally sort by `arrival_time` and truncate to 5. -/
def v2Arrivals (routes : List RouteRec) (stopTimes : List V2StopTime)
    (updates : List FeedEntity) (stopId : String) (nowSec : ℕ)
    (rand : ℕ → ℕ) : List V2Arrival :=
  (List.insertionSort v2ArrivalLe
      (((stopTimes.filter (fun st => st.stop_id == stopId)).enum.filterMap
          (fun p =>
            match routes.find? (fun r => r.route_id == p.2.route_id) with
            | none => none
            | some route =>
              let ru := liveStopUpdate updates p.2.trip_id stopId
              some
                { route_name := v2RouteName route
                  arrival_time :=
                    match truthyTime (ru.bind (fun u => u.arrival.bind (fun ev => ev.time))) with
                    | some t => t
                    | none => nowSec + rand p.1 % 3600
                  is_realtime := ru.isSome
                  delay := ((ru.bind (fun u => u.arrival)).bind (fun ev => ev.delay)).getD 0 })))).take 5

/-- Fixture route. -/
def routeR : RouteRec := ⟨"R1", "1", "Route One"⟩

/-- Fixture trip on `routeR`. -/
def tripT : TripRec := ⟨"T1", "R1", "Downtown"⟩

/-- Fixture stop. -/
def stopS1 : StopRec := ⟨"S1", "Main St", some 43, some (-78)⟩

/-- Stop-time 10 seconds after noon (12:00:10). -/
def stA : StopTimeRec := ⟨"T1", "S1", ⟨12, 0, 10⟩, ⟨12, 0, 10⟩, 1⟩

/-- Stop-time at 12:15:00. -/
def stB : StopTimeRec := ⟨"T1", "S1", ⟨12, 15, 0⟩, ⟨12, 15, 0⟩, 2⟩

/-- The queried stop id of the fixtures. -/
def sid1 : String := "S1"

/-- Reference now: noon (43 200 s) of day 0. -/
def now0 : ℕ := 43200

/-- Snapshot whose only stop-time arrives 10 s after `now0`. -/
def cache1 : GtfsCache := ⟨[routeR], [tripT], [stA], [stopS1]⟩

/-- Snapshot whose only stop-time arrives at 12:15:00. -/
def cache2 : GtfsCache := ⟨[routeR], [tripT], [stB], [stopS1]⟩

/-- A live entity predicting arrival at 44 400 s (12:20:00, five
minutes after `stB`'s schedule) for trip `T1` at stop `S1`. -/
def liveEnt : FeedEntity :=
  ⟨some ⟨some ⟨"T1"⟩, some [⟨"S1", some ⟨some 44400, none⟩, none⟩]⟩⟩

/-- Live update list holding only `liveEnt`. -/
def updatesW : List FeedEntity := [liveEnt]


/-- Fixture stop with identifier `B`, listed first in the snapshot. -/
def stopB : StopRec := ⟨"B", "Stop B", some 0, some 0⟩

/-- Fixture stop with identifier `A`, listed second in the snapshot. -/
def stopA : StopRec := ⟨"A", "Stop A", some 0, some 0⟩

/-- Snapshot holding `stopB` before `stopA` and no schedule rows. -/
def gtfsTie : GtfsCache := ⟨[], [], [], [stopB, stopA]⟩

/-- Distance function placing every stop exactly 1 km away. -/
def distOne : StopRec → Option ℚ := fun _ => some 1

/-- The `StopResult` `findNearby` builds for `stopB` under `distOne`. -/
def resB : StopResult := ⟨"B", "Stop B", some 0, some 0, some 1, []⟩

/-- The `StopResult` `findNearby` builds for `stopA` under `distOne`. -/
def resA : StopResult := ⟨"A", "Stop A", some 0, some 0, some 1, []⟩

/-- Query parameter that parses as latitude 43. -/
def latOkP : QueryParam := ⟨true, true, some 43⟩

/-- Query parameter carrying a non-numeric string such as `abc`:
present, non-empty, `parseFloat` yields `NaN`. -/
def lonBadP : QueryParam := ⟨true, true, none⟩

/-- Query parameter that parses as longitude −78. -/
def lonOkP : QueryParam := ⟨true, true, some (-78)⟩

/-- Distance model for the `GET` theorems: Haversine propagates `NaN`
from either query coordinate; on numeric inputs the concrete value
(fixed here at 1 km) is irrelevant to the claims. -/
def calcDistNaN : Option ℚ → Option ℚ → StopRec → Option ℚ :=
  fun a b _ =>
    match a, b with
    | some _, some _ => some 1
    | _, _ => none

/-- Stop-time row of the second revision's shape: trip `T1`, stop `S1`,
route `R1` on the row itself. -/
def v2St : V2StopTime := ⟨"T1", "S1", "R1"⟩


/-- The entry `getUpcomingArrivals` produces for `cache1` at `now0`:
10 seconds out, so the rounded minutes figure is 0. -/
def entryA : ResolvedArrival := ⟨"R1", "1", "Downtown", 43210, 0, false, 0⟩

/-- Every entry a resolved row produces carries as its sort key the
rounded distance from `now` to its (possibly live-adjusted) arrival
instant. -/
theorem resolveRow_minutes {gtfs : GtfsCache} {updates : List FeedEntity}
    {stopId : String} {now : ℕ} {st : StopTimeRec} {e : ResolvedArrival}
    (h : resolveRow gtfs updates stopId now st = some e) :
    e.minutesUntilArrival = jsRound60 ((e.arrivalSec : ℤ) - (now : ℤ)) := by
  unfold resolveRow at h
  split at h
  · exact Option.noConfusion h
  · split at h
    · exact Option.noConfusion h
    · injection h with h2
      subst h2
      rfl

/-- A stop-time row whose trip is absent from the snapshot, or whose
trip's route is absent, resolves to nothing. -/
theorem resolveRow_skips {gtfs : GtfsCache} {updates : List FeedEntity}
    {stopId : String} {now : ℕ} {st : StopTimeRec}
    (h : gtfs.trips.find? (fun t => t.trip_id == st.trip_id) = none ∨
      ∃ trip, gtfs.trips.find? (fun t => t.trip_id == st.trip_id) = some trip ∧
        gtfs.routes.find? (fun r => r.route_id == trip.route_id) = none) :
    resolveRow gtfs updates stopId now st = none := by
  unfold resolveRow
  rcases h with h | ⟨trip, h1, h2⟩
  · simp only [h]
  · simp only [h1, h2]

/-- A true radius check on a possibly-`NaN` number means the number is
an actual numeric value within the bound. -/
theorem jsLeNum_spec {x : Option ℚ} {c : ℚ} (h : jsLeNum x c = true) :
    ∃ q, x = some q ∧ q ≤ c := by
  unfold jsLeNum at h
  split at h
  · rename_i q
    exact ⟨q, rfl, of_decide_eq_true h⟩
  · exact Bool.noConfusion h

/-- C3: a scheduled time whose hour component `h` is 24 or more (with
in-range minute and second fields) parses to the clock time
`(h mod 24):MM:SS` on the calendar day `h div 24` days after the
reference day of `now`, and the resulting clock time is always valid
(hour below 24). Days are epoch-seconds divided by 86 400. -/
theorem parseGtfsTime_rollover (h m s now : ℕ) (_hh : 24 ≤ h)
    (hm : m < 60) (hs : s < 60) :
    parseGtfsTime ⟨h, m, s⟩ now / 86400 = now / 86400 + h / 24 ∧
    parseGtfsTime ⟨h, m, s⟩ now % 86400 / 3600 = h % 24 ∧
    parseGtfsTime ⟨h, m, s⟩ now % 3600 / 60 = m ∧
    parseGtfsTime ⟨h, m, s⟩ now % 60 = s ∧
    h % 24 < 24 := by
  dsimp only [parseGtfsTime]
  omega

/-- C3 witness: `25:30:00` against a reference instant on day 1
resolves to day 2 (the day after), clock 1:30:00 AM. -/
theorem parseGtfsTime_rollover_witness :
    parseGtfsTime ⟨25, 30, 0⟩ 100000 / 86400 = 100000 / 86400 + 25 / 24 ∧
    parseGtfsTime ⟨25, 30, 0⟩ 100000 % 86400 / 3600 = 25 % 24 ∧
    parseGtfsTime ⟨25, 30, 0⟩ 100000 % 3600 / 60 = 30 ∧
    parseGtfsTime ⟨25, 30, 0⟩ 100000 % 60 = 0 ∧
    25 % 24 < 24 :=
  parseGtfsTime_rollover 25 30 0 100000 (by decide) (by decide) (by decide)

/-- C1 counterexample: for the stop whose only scheduled arrival lies
10 seconds after `now0`, the resolver keeps the entry (its arrival is
strictly in the future) but reports `minutesUntilArrival = 0`, so the
claimed strict bound `0 < minutesUntilArrival` fails on this input. -/
theorem arrival_minutes_not_strictly_positive :
    getUpcomingArrivals sid1 cache1 [] now0 = [entryA] ∧
    entryA.minutesUntilArrival = 0 :=
  ⟨by decide, rfl⟩

/-- C1 (amended): every entry the resolver returns has
`0 ≤ minutesUntilArrival ≤ 120` (an arrival less than 30 seconds out
rounds to 0, so the bound is not strict), and the kept entries are
exactly characterized by their (possibly live-adjusted) arrival
instant being strictly after `now` and at most 2 hours in the
future. -/
theorem arrival_window_bounds (stopId : String) (gtfs : GtfsCache)
    (updates : List FeedEntity) (now : ℕ) (e : ResolvedArrival)
    (he : e ∈ getUpcomingArrivals stopId gtfs updates now) :
    0 ≤ e.minutesUntilArrival ∧ e.minutesUntilArrival ≤ 120 ∧
    now < e.arrivalSec ∧ e.arrivalSec ≤ now + 7200 := by
  unfold getUpcomingArrivals at he
  have h2 := (List.take_sublist 5 _).subset he
  rw [List.mem_insertionSort, List.mem_filter] at h2
  obtain ⟨h3, hw⟩ := h2
  have hwin : now < e.arrivalSec ∧ e.arrivalSec ≤ now + 7200 := by
    have := of_decide_eq_true (Bool.and_elim_left hw)
    have := of_decide_eq_true (Bool.and_elim_right hw)
    exact ⟨by assumption, by assumption⟩
  rw [List.mem_filterMap] at h3
  obtain ⟨st, hst, hr⟩ := h3
  have hm := resolveRow_minutes hr
  refine ⟨?_, ?_, hwin.1, hwin.2⟩ <;> rw [hm] <;> unfold jsRound60 <;> omega

/-- C1 witness: the 10-seconds-out entry of `cache1` satisfies the
amended bounds. -/
theorem arrival_window_bounds_witness :
    0 ≤ entryA.minutesUntilArrival ∧ entryA.minutesUntilArrival ≤ 120 ∧
    now0 < entryA.arrivalSec ∧ entryA.arrivalSec ≤ now0 + 7200 :=
  arrival_window_bounds sid1 cache1 [] now0 entryA (by decide)

/-- C2: when the live feed holds an arrival prediction for a
stop-time's trip at the queried stop (per the source's lookup:
first matching entity, then first matching per-stop update with a
truthy arrival time), the resolved row takes the live instant as its
arrival basis: `isRealtime` is set, `delayMinutes` is the rounded
live-minus-scheduled difference, the sort key `minutesUntilArrival`
is computed from the live instant, and the 2-hour window test is the
window test applied to the live instant. -/
theorem live_override (gtfs : GtfsCache) (updates : List FeedEntity)
    (stopId : String) (now : ℕ) (st : StopTimeRec) (trip : TripRec)
    (route : RouteRec) (liveT : ℕ)
    (htrip : gtfs.trips.find? (fun t => t.trip_id == st.trip_id) = some trip)
    (hroute : gtfs.routes.find? (fun r => r.route_id == trip.route_id) = some route)
    (hlive : liveArrivalTime updates st.trip_id stopId = some liveT) :
    ∃ e, resolveRow gtfs updates stopId now st = some e ∧
      e.arrivalSec = liveT ∧
      e.isRealtime = true ∧
      e.delayMinutes = jsRound60 ((liveT : ℤ) - (parseGtfsTime st.arrival_time now : ℤ)) ∧
      e.minutesUntilArrival = jsRound60 ((liveT : ℤ) - (now : ℤ)) ∧
      inWindow now e = (decide (now < liveT) && decide (liveT ≤ now + 7200)) ∧
      e.routeId = route.route_id ∧ e.routeName = route.route_short_name ∧
      e.headsign = trip.trip_headsign := by
  unfold resolveRow
  simp only [htrip, hroute, hlive]
  exact ⟨_, rfl, rfl, rfl, rfl, rfl, rfl, rfl, rfl, rfl⟩

/-- C2 witness: the fixture live entity predicts 44 400 s for trip
`T1` at stop `S1`, five minutes past `stB`'s schedule. -/
theorem live_override_witness :
    ∃ e, resolveRow cache2 updatesW sid1 now0 stB = some e ∧
      e.arrivalSec = 44400 ∧
      e.isRealtime = true ∧
      e.delayMinutes = jsRound60 ((44400 : ℤ) - (parseGtfsTime stB.arrival_time now0 : ℤ)) ∧
      e.minutesUntilArrival = jsRound60 ((44400 : ℤ) - (now0 : ℤ)) ∧
      inWindow now0 e = (decide (now0 < 44400) && decide (44400 ≤ now0 + 7200)) ∧
      e.routeId = routeR.route_id ∧ e.routeName = routeR.route_short_name ∧
      e.headsign = tripT.trip_headsign :=
  live_override cache2 updatesW sid1 now0 stB tripT routeR 44400
    (by decide) (by decide) (by decide)

/-- C6: a stop's arrivals list never exceeds five entries and is
sorted ascending by `minutesUntilArrival`. -/
theorem arrivals_cap_and_sorted (stopId : String) (gtfs : GtfsCache)
    (updates : List FeedEntity) (now : ℕ) :
    (getUpcomingArrivals stopId gtfs updates now).length ≤ 5 ∧
    List.Pairwise arrivalLe (getUpcomingArrivals stopId gtfs updates now) := by
  unfold getUpcomingArrivals
  constructor
  · exact List.length_take_le 5 _
  · exact List.Pairwise.sublist (List.take_sublist 5 _)
      (List.sorted_insertionSort arrivalLe _)

/-- C4: the nearby-stops result is capped at 60 entries, sorted
ascending by distance, and every returned stop comes from the
snapshot with its recorded distance a genuine numeric value of at
most 10 km — a `NaN` or out-of-radius stop never appears. -/
theorem findNearby_radius_sorted_cap (dist : StopRec → Option ℚ)
    (gtfs : GtfsCache) (updates : List FeedEntity) (now : ℕ) :
    (findNearby dist gtfs updates now).length ≤ 60 ∧
    List.Pairwise stopDistLe (findNearby dist gtfs updates now) ∧
    ∀ s ∈ findNearby dist gtfs updates now,
      (∃ stop ∈ gtfs.stops, s.id = stop.stop_id ∧ s.distance = dist stop) ∧
      ∃ q, s.distance = some q ∧ q ≤ 10 := by
  unfold findNearby
  refine ⟨List.length_take_le 60 _,
    List.Pairwise.sublist (List.take_sublist 60 _)
      (List.sorted_insertionSort stopDistLe _), ?_⟩
  intro s hs
  have h1 := (List.take_sublist 60 _).subset hs
  rw [List.mem_insertionSort] at h1
  unfold findNearbyFiltered at h1
  rw [List.mem_filter] at h1
  obtain ⟨hmem, hle⟩ := h1
  rw [List.mem_map] at hmem
  obtain ⟨stop, hstop, rfl⟩ := hmem
  exact ⟨⟨stop, hstop, rfl, rfl⟩, jsLeNum_spec hle⟩

/-- C4 witness: under `distOne` every stop of `gtfsTie` is returned at
distance 1 km, within the radius. -/
theorem findNearby_radius_sorted_cap_witness :
    (∃ stop ∈ gtfsTie.stops, resB.id = stop.stop_id ∧ resB.distance = distOne stop) ∧
    ∃ q, resB.distance = some q ∧ q ≤ 10 :=
  (findNearby_radius_sorted_cap distOne gtfsTie [] 0).2.2 resB (by decide)

/-- C5 counterexample: with two stops at exactly equal distance and
the snapshot listing `B` before `A`, the endpoint returns `B` before
`A` — the JS sort is stable on comparator ties — although the
identifier of the second result is strictly smaller. The claimed
tie-break by ascending stop identifier therefore fails on this
input. -/
theorem tie_order_not_by_id :
    findNearby distOne gtfsTie [] 0 = [resB, resA] ∧
    resB.distance = resA.distance ∧
    resA.id < resB.id := by
  refine ⟨by decide, rfl, ?_⟩
  rw [String.lt_iff_toList_lt]
  decide

/-- C5 (amended): equal-distance stops appear in the order the
snapshot lists them (the sort is stable), which makes the output
deterministic for a fixed snapshot — but the tie-break is snapshot
order, not ascending stop identifier. Stated on the sorted list the
truncation to 60 takes its prefix from; truncation preserves relative
order. -/
theorem tie_order_stable (dist : StopRec → Option ℚ) (gtfs : GtfsCache)
    (updates : List FeedEntity) (now : ℕ) (a b : StopResult)
    (hd : a.distance = b.distance)
    (hsub : List.Sublist [a, b] (findNearbyFiltered dist gtfs updates now)) :
    List.Sublist [a, b]
      (List.insertionSort stopDistLe (findNearbyFiltered dist gtfs updates now)) :=
  List.pair_sublist_insertionSort
    (show stopDistLe a b from by unfold stopDistLe; rw [hd]) hsub

/-- C5 witness: the two equidistant fixture stops, snapshot order
`B` then `A`, keep that order through the sort. -/
theorem tie_order_stable_witness :
    resB.distance = resA.distance ∧
    List.Sublist [resB, resA]
      (List.insertionSort stopDistLe (findNearbyFiltered distOne gtfsTie [] 0)) :=
  ⟨rfl, tie_order_stable distOne gtfsTie [] 0 resB resA rfl
    (by rw [show findNearbyFiltered distOne gtfsTie [] 0 = [resB, resA] from by decide])⟩

/-- C7: the first revision's validation only rejects an absent or
empty parameter; a present non-numeric string such as `abc` passes
`!lat || !lon`, flows on as `NaN`, poisons every distance, and the
handler answers 200 with an empty stops array instead of a 400 —
while the same snapshot with numeric coordinates returns its stops.
This exhibits the behavior the spec calls out as a bug. -/
theorem invalid_coordinate_not_rejected :
    GET_v1 latOkP lonBadP calcDistNaN gtfsTie [] 0 = NearbyResponse.ok [] ∧
    GET_v1 latOkP lonOkP calcDistNaN gtfsTie [] 0 = NearbyResponse.ok [resB, resA] :=
  ⟨by decide, by decide⟩

/-- C8: every failure mode of the live fetch yields the empty update
list rather than an error, and with an empty update list the resolver
returns exactly the schedule-only arrivals: the pipeline over
`resolveScheduledRow`, every entry carrying `isRealtime = false` and
`delayMinutes = 0`. -/
theorem live_failure_static_fallback :
    (getRealtimeTripUpdates LiveFetchOutcome.fetchError = [] ∧
     getRealtimeTripUpdates LiveFetchOutcome.emptyPayload = [] ∧
     getRealtimeTripUpdates LiveFetchOutcome.decodeError = [] ∧
     getRealtimeTripUpdates LiveFetchOutcome.timedOut = []) ∧
    ∀ (stopId : String) (gtfs : GtfsCache) (now : ℕ),
      getUpcomingArrivals stopId gtfs [] now = staticUpcomingArrivals stopId gtfs now ∧
      ∀ e ∈ getUpcomingArrivals stopId gtfs [] now,
        e.isRealtime = false ∧ e.delayMinutes = 0 := by
  refine ⟨⟨rfl, rfl, rfl, rfl⟩, ?_⟩
  intro stopId gtfs now
  have hrow : resolveRow gtfs [] stopId now = resolveScheduledRow gtfs now := by
    funext st
    unfold resolveRow resolveScheduledRow
    cases gtfs.trips.find? (fun t => t.trip_id == st.trip_id) with
    | none => rfl
    | some trip =>
      cases gtfs.routes.find? (fun r => r.route_id == trip.route_id) with
      | none => rfl
      | some route => rfl
  constructor
  · unfold getUpcomingArrivals staticUpcomingArrivals
    rw [hrow]
  · intro e he
    unfold getUpcomingArrivals at he
    have h2 := (List.take_sublist 5 _).subset he
    rw [List.mem_insertionSort, List.mem_filter] at h2
    rw [List.mem_filterMap] at h2
    obtain ⟨⟨st, hst, hr⟩, hw⟩ := h2
    rw [hrow] at hr
    unfold resolveScheduledRow at hr
    split at hr
    · exact Option.noConfusion hr
    · split at hr
      · exact Option.noConfusion hr
      · injection hr with h2
        subst h2
        exact ⟨rfl, rfl⟩

/-- C8 witness: on `cache1` with no live data the resolver output
equals the schedule-only output, and its single entry is not marked
realtime. -/
theorem live_failure_static_fallback_witness :
    getUpcomingArrivals sid1 cache1 [] now0 = staticUpcomingArrivals sid1 cache1 now0 ∧
    entryA.isRealtime = false ∧ entryA.delayMinutes = 0 :=
  ⟨(live_failure_static_fallback.2 sid1 cache1 now0).1,
   (live_failure_static_fallback.2 sid1 cache1 now0).2 entryA (by decide)⟩

/-- Dropping an element the row function maps to nothing leaves a
filter-then-filterMap pipeline unchanged. -/
theorem filterMap_filter_middle_none {α β : Type} (p : α → Bool)
    (f : α → Option β) (pre post : List α) (a : α) (h : f a = none) :
    ((pre ++ a :: post).filter p).filterMap f =
      ((pre ++ post).filter p).filterMap f := by
  rw [List.filter_append, List.filter_append, List.filter_cons]
  cases hp : p a <;>
    simp [List.filterMap_append, List.filterMap_cons, h]

/-- C9: a stop-time row whose trip identifier is absent from the
snapshot's trips, or whose trip's route identifier is absent from the
routes, contributes nothing: the resolver's (total, never-failing)
output on a snapshot containing the row equals its output with the
row removed. -/
theorem missing_reference_skipped (routes : List RouteRec)
    (trips : List TripRec) (stops : List StopRec)
    (updates : List FeedEntity) (stopId : String) (now : ℕ)
    (pre post : List StopTimeRec) (st : StopTimeRec)
    (hmiss : trips.find? (fun t => t.trip_id == st.trip_id) = none ∨
      ∃ trip, trips.find? (fun t => t.trip_id == st.trip_id) = some trip ∧
        routes.find? (fun r => r.route_id == trip.route_id) = none) :
    getUpcomingArrivals stopId ⟨routes, trips, pre ++ st :: post, stops⟩ updates now =
      getUpcomingArrivals stopId ⟨routes, trips, pre ++ post, stops⟩ updates now := by
  have hnone :
      resolveRow ⟨routes, trips, pre ++ st :: post, stops⟩ updates stopId now st = none :=
    resolveRow_skips hmiss
  unfold getUpcomingArrivals
  dsimp only
  rw [filterMap_filter_middle_none (fun r => r.stop_id == stopId)
    (resolveRow ⟨routes, trips, pre ++ st :: post, stops⟩ updates stopId now)
    pre post st hnone]
  exact rfl

/-- C9 witness: `cache`s sharing empty trips: the row `stA` has no
matching trip, so its presence does not change the output. -/
theorem missing_reference_skipped_witness :
    getUpcomingArrivals sid1 ⟨[], [], [stA], []⟩ [] now0 =
      getUpcomingArrivals sid1 ⟨[], [], [], []⟩ [] now0 :=
  missing_reference_skipped [] [] [] [] sid1 now0 [] [] stA (Or.inl rfl)

/-- C10: the second revision's arrival computation is a function of a
random draw: with identical snapshot, live updates (none), stop and
reference time, two different values of `Math.random` produce two
different arrival lists, and the produced arrival time is
`now + draw` — fabricated, derived neither from the static schedule
(whose rows this revision never parses times from) nor from any live
prediction. -/
theorem random_arrival_fabrication :
    v2Arrivals [routeR] [v2St] [] sid1 1000 (fun _ => 0) =
      [⟨"Route One", 1000, false, 0⟩] ∧
    v2Arrivals [routeR] [v2St] [] sid1 1000 (fun _ => 1) =
      [⟨"Route One", 1001, false, 0⟩] :=
  ⟨by decide, by decide⟩
